import Mathlib

/-!
Shallow embedding of `packages/firestore/scripts/bloom_filter_watch_test/watch_stream.ts`.

The transport (`Connection`/`Stream`), the wire encoding, and the opaque
`BloomFilter` membership algorithm are external collaborators; this file embeds
the state and control logic of the script itself: the `WatchStream` controller,
the `TargetState` machine, and `createBloomFilterFrom`.

Modelling conventions:
- JavaScript exceptions become an `Except` result paired with the
  post-mutation state (a throw in the source leaves already-performed
  mutations in place, so every stateful operation returns its final state on
  both paths).
- A `Deferred` (single-assignment promise) becomes `DeferredState`:
  `resolve`/`reject` settle it only when pending (first settle wins, as for a
  JS promise).
- A JS `Set<string>` becomes an insertion-ordered duplicate-free
  `List String`; `Map<number, TargetState>` becomes an insertion-ordered
  association list `List (Nat × TargetState)`.
- `string | Uint8Array` resume tokens are collapsed to `String` (opaque to the
  logic); decoded bitmap bytes are `List Nat`.
-/

/-- The `Deferred` promise cell: pending, or settled once (resolved/rejected). -/
inductive DeferredState (α : Type) where
  | pending
  | resolved (v : α)
  | rejected
deriving DecidableEq, Repr

/-- Promise `resolve`: only the first settlement has an effect. -/
def DeferredState.resolve (d : DeferredState α) (v : α) : DeferredState α :=
  match d with
  | .pending => .resolved v
  | d => d

/-- Promise `reject`: only the first settlement has an effect. -/
def DeferredState.reject (d : DeferredState α) : DeferredState α :=
  match d with
  | .pending => .rejected
  | d => d

/-- Error taxonomy of the script: `WatchError` (public-API misuse and protocol
violations), `TargetStateError` (event applied to a `TargetState` out of
order), `InvalidBloomFilterError` (malformed existence-filter payload). -/
inductive WatchTestError where
  | watchError (msg : String)
  | targetStateError (msg : String)
  | invalidBloomFilterError (msg : String)
deriving DecidableEq, Repr

/-- The opaque validated bloom-filter value: decoded bytes, padding, hash count. -/
structure BloomFilter where
  bitmap : List Nat
  padding : Int
  hashCount : Int
deriving DecidableEq, Repr

/-- `TargetSnapshot`: the accumulated document paths at completeness plus the
resume token. -/
structure TargetSnapshot where
  documentPaths : List String
  resumeToken : String
deriving DecidableEq, Repr

/-- JS `Set.add`: append if absent. -/
def setAdd (l : List String) (x : String) : List String :=
  if x ∈ l then l else l ++ [x]

/-- JS `Set.delete`: remove the element. -/
def setDelete (l : List String) (x : String) : List String :=
  l.filter (fun y => y ≠ x)

/-- Wire shape `unchangedNames.bits`: optional padding and (decoded) bitmap. -/
structure BloomFilterBits where
  padding : Option Int
  bitmap : Option (List Nat)
deriving DecidableEq, Repr

/-- Wire shape `unchangedNames`: optional bits and hash count. -/
structure UnchangedNames where
  bits : Option BloomFilterBits
  hashCount : Option Int
deriving DecidableEq, Repr

/-- Wire shape of an inbound `ExistenceFilter` message. -/
structure ExistenceFilterMsg where
  targetId : Option Nat
  unchangedNames : Option UnchangedNames
deriving DecidableEq, Repr

/-- `createBloomFilterFrom`: validates the wire payload and constructs the
filter value, `none` when the message carries no `unchangedNames`. -/
def createBloomFilterFrom (existenceFilter : ExistenceFilterMsg) :
    Except WatchTestError (Option BloomFilter) :=
  match existenceFilter.unchangedNames with
  | none => .ok none
  | some unchangedNames =>
    let padding := ((unchangedNames.bits.bind fun b => b.padding).getD 0)
    let hashCount := unchangedNames.hashCount.getD 0
    if padding < 0 ∨ padding > 7 then
      .error (.invalidBloomFilterError "invalid padding size")
    else if hashCount < 0 then
      .error (.invalidBloomFilterError "invalid hash count")
    else
      let bytes := ((unchangedNames.bits.bind fun b => b.bitmap).getD [])
      if hashCount = 0 ∧ bytes.length > 0 then
        .error (.invalidBloomFilterError "non-zero hash count when bitmap size is zero")
      else
        .ok (some { bitmap := bytes, padding := padding, hashCount := hashCount })

/-- The per-subscription `TargetState` machine: lifecycle flags, accumulated
document-name set, and its four completion primitives. -/
structure TargetState where
  targetId : Nat
  added : Bool
  removed : Bool
  current : Bool
  accumulatedDocumentNames : List String
  addedDeferred : DeferredState Unit
  removedDeferred : DeferredState Unit
  initialSnapshotDeferred : DeferredState TargetSnapshot
  existenceFilterDeferred : DeferredState (Option BloomFilter)
deriving DecidableEq, Repr

/-- The `TargetState` constructor: flags cleared, accumulated set seeded from
the optional resume snapshot's document paths, all deferreds pending. -/
def TargetState.new (targetId : Nat) (initialDocumentPaths : Option (List String)) :
    TargetState where
  targetId := targetId
  added := false
  removed := false
  current := false
  accumulatedDocumentNames := (initialDocumentPaths.getD []).foldl setAdd []
  addedDeferred := .pending
  removedDeferred := .pending
  initialSnapshotDeferred := .pending
  existenceFilterDeferred := .pending

/-- `onError`: rejects every still-pending completion primitive. -/
def TargetState.onError (s : TargetState) : TargetState :=
  { s with
    addedDeferred := s.addedDeferred.reject
    removedDeferred := s.removedDeferred.reject
    initialSnapshotDeferred := s.initialSnapshotDeferred.reject
    existenceFilterDeferred := s.existenceFilterDeferred.reject }

/-- `onAdded`: legal only once; resolves the added completion. -/
def TargetState.onAdded (s : TargetState) : Except WatchTestError Unit × TargetState :=
  if s.added then
    (.error (.targetStateError "onAdded() already invoked."), s)
  else
    (.ok (), { s with added := true, addedDeferred := s.addedDeferred.resolve () })

/-- `onRemoved`: legal only after added, only once; resolves the removed
completion. -/
def TargetState.onRemoved (s : TargetState) : Except WatchTestError Unit × TargetState :=
  if s.removed then
    (.error (.targetStateError "onRemoved() already invoked."), s)
  else if ¬ s.added then
    (.error (.targetStateError "onRemoved() invoked before onAdded()."), s)
  else
    (.ok (), { s with removed := true, removedDeferred := s.removedDeferred.resolve () })

/-- `onCurrent`: legal only after added and before removed; sets current. -/
def TargetState.onCurrent (s : TargetState) : Except WatchTestError Unit × TargetState :=
  if ¬ s.added then
    (.error (.targetStateError "onCurrent() invoked before onAdded()."), s)
  else if s.removed then
    (.error (.targetStateError "onCurrent() invoked after onRemoved()."), s)
  else
    (.ok (), { s with current := true })

/-- `onReset`: legal only after added and before removed; clears current and
the accumulated set. -/
def TargetState.onReset (s : TargetState) : Except WatchTestError Unit × TargetState :=
  if ¬ s.added then
    (.error (.targetStateError "onReset() invoked before onAdded()."), s)
  else if s.removed then
    (.error (.targetStateError "onReset() invoked after onRemoved()."), s)
  else
    (.ok (), { s with current := false, accumulatedDocumentNames := [] })

/-- `onNoChange`: legal only after added and before removed; when current and
the resume token is non-null, resolves the initial-snapshot completion with a
copy of the accumulated set plus the token. -/
def TargetState.onNoChange (s : TargetState) (resumeToken : Option String) :
    Except WatchTestError Unit × TargetState :=
  if ¬ s.added then
    (.error (.targetStateError "onNoChange() invoked before onAdded()."), s)
  else if s.removed then
    (.error (.targetStateError "onNoChange() invoked after onRemoved()."), s)
  else if s.current then
    match resumeToken with
    | some tok =>
      (.ok (), { s with
        initialSnapshotDeferred := s.initialSnapshotDeferred.resolve
          { documentPaths := s.accumulatedDocumentNames, resumeToken := tok } })
    | none => (.ok (), s)
  else
    (.ok (), s)

/-- `onDocumentChanged`: legal only after added and before removed; clears
current and adds the document name to the accumulated set. -/
def TargetState.onDocumentChanged (s : TargetState) (documentName : String) :
    Except WatchTestError Unit × TargetState :=
  if ¬ s.added then
    (.error (.targetStateError "onDocumentChanged() invoked when not added."), s)
  else if s.removed then
    (.error (.targetStateError "onDocumentChanged() invoked after onRemoved()."), s)
  else
    (.ok (), { s with
      current := false
      accumulatedDocumentNames := setAdd s.accumulatedDocumentNames documentName })

/-- `onDocumentRemoved`: legal only after added and before removed; clears
current and deletes the document name from the accumulated set. -/
def TargetState.onDocumentRemoved (s : TargetState) (documentName : String) :
    Except WatchTestError Unit × TargetState :=
  if ¬ s.added then
    (.error (.targetStateError "onDocumentRemoved() invoked when not added."), s)
  else if s.removed then
    (.error (.targetStateError "onDocumentRemoved() invoked after onRemoved()."), s)
  else
    (.ok (), { s with
      current := false
      accumulatedDocumentNames := setDelete s.accumulatedDocumentNames documentName })

/-- `onExistenceFilter`: legal only after added and before removed; resolves
the existence-filter completion with the validated filter (a validation
failure propagates as an exception, leaving the deferred untouched). -/
def TargetState.onExistenceFilter (s : TargetState) (existenceFilter : ExistenceFilterMsg) :
    Except WatchTestError Unit × TargetState :=
  if ¬ s.added then
    (.error (.targetStateError "onExistenceFilter() invoked when not added."), s)
  else if s.removed then
    (.error (.targetStateError "onExistenceFilter() invoked after onRemoved()."), s)
  else
    match createBloomFilterFrom existenceFilter with
    | .error e => (.error e, s)
    | .ok bf =>
      (.ok (), { s with existenceFilterDeferred := s.existenceFilterDeferred.resolve bf })

/-- The five `targetChangeType` tags (`?? "NO_CHANGE"` is applied at dispatch). -/
inductive TargetChangeType where
  | ADD
  | REMOVE
  | CURRENT
  | RESET
  | NO_CHANGE
deriving DecidableEq, Repr

/-- Wire shape of an inbound `TargetChange` message; `cause` records the
presence of an error cause. -/
structure TargetChangeMsg where
  targetIds : Option (List Nat)
  cause : Bool
  targetChangeType : Option TargetChangeType
  resumeToken : Option String
deriving DecidableEq, Repr

/-- Wire shape of an inbound `DocumentChange` message. -/
structure DocumentChangeMsg where
  targetIds : Option (List Nat)
  removedTargetIds : Option (List Nat)
  documentName : String
deriving DecidableEq, Repr

/-- Caller-supplied resume descriptor: prior snapshot plus expected count. -/
structure TargetResume where
  from_ : TargetSnapshot
  expectedCount : Int
deriving DecidableEq, Repr

/-- `WatchStreamAddTargetInfo`: the caller's target specification. -/
structure WatchStreamAddTargetInfo where
  projectId : String
  collectionId : String
  keyFilter : String
  valueFilter : String
  resume : Option TargetResume
deriving DecidableEq, Repr

/-- The `WatchStream` controller state: whether a transport stream was
installed (`_stream !== null`), the closed flag, the id counter, and the
target registry (`Map<number, TargetState>` as an insertion-ordered
association list). -/
structure WatchStream where
  streamOpen : Bool
  closed : Bool
  nextTargetId : Nat
  targets : List (Nat × TargetState)
deriving DecidableEq, Repr

/-- `Map.get`: the value at a key, if registered. -/
def lookupTarget (targets : List (Nat × TargetState)) (targetId : Nat) :
    Option TargetState :=
  (targets.find? (fun p => p.1 = targetId)).map (fun p => p.2)

/-- Writing back through a `TargetState` reference held in the map: replaces
the value at a registered key. -/
def updateTarget (targets : List (Nat × TargetState)) (targetId : Nat)
    (s : TargetState) : List (Nat × TargetState) :=
  targets.map (fun p => if p.1 = targetId then (targetId, s) else p)

/-- `Map.delete`: removes the entry at a key. -/
def deleteTarget (targets : List (Nat × TargetState)) (targetId : Nat) :
    List (Nat × TargetState) :=
  targets.filter (fun p => p.1 ≠ targetId)

/-- `Map.set`: overwrites a registered key, appends a fresh one. -/
def setTarget (targets : List (Nat × TargetState)) (targetId : Nat)
    (s : TargetState) : List (Nat × TargetState) :=
  if (targets.find? (fun p => p.1 = targetId)).isSome then
    updateTarget targets targetId s
  else
    targets ++ [(targetId, s)]

/-- `_targetStatesForTargetIds`: every listed id must be registered (unknown
ids are a protocol violation); a non-empty list selects exactly the listed
machines, an empty list selects all registered machines when
`allTargetsIfEmpty`, none otherwise. The source returns the machine objects;
mutations through them alias the registry, which this embedding renders by
returning the selected ids and re-reading the registry at each dispatch step. -/
def targetStatesForTargetIds (targets : List (Nat × TargetState))
    (targetIds : List Nat) (allTargetsIfEmpty : Bool) :
    Except WatchTestError (List Nat) :=
  if targetIds.all (fun targetId => (lookupTarget targets targetId).isSome) then
    if targetIds.length > 0 ∨ ¬ allTargetsIfEmpty then
      .ok targetIds
    else
      .ok (targets.map (fun p => p.1))
  else
    .error (.watchError "TargetChange specifies an unknown targetId")

/-- The per-machine action of one `TargetChange` message: the error cause, if
present, short-circuits to `onError`; otherwise dispatch on the change type
(defaulted to `NO_CHANGE`). The TypeScript tag union is closed, so the
defensive unknown-tag branch of the source is unrepresentable here. -/
def applyTargetChangeTo (tc : TargetChangeMsg) (s : TargetState) :
    Except WatchTestError Unit × TargetState :=
  if tc.cause then
    (.ok (), s.onError)
  else
    match tc.targetChangeType.getD .NO_CHANGE with
    | .ADD => s.onAdded
    | .REMOVE => s.onRemoved
    | .CURRENT => s.onCurrent
    | .RESET => s.onReset
    | .NO_CHANGE => s.onNoChange tc.resumeToken

/-- The `_onTargetChange` dispatch loop over the selected ids. A lookup can
miss only when a `REMOVE` earlier in the same loop deleted the id; the source
then still invokes the handler on the dead object, whose guard raises exactly
this error. After a successful `REMOVE` handler the machine is evicted. -/
def runTargetChangeOn (tc : TargetChangeMsg) :
    List Nat → WatchStream → Except WatchTestError Unit × WatchStream
  | [], w => (.ok (), w)
  | targetId :: rest, w =>
    match lookupTarget w.targets targetId with
    | none => (.error (.targetStateError "onRemoved() already invoked."), w)
    | some s =>
      match applyTargetChangeTo tc s with
      | (.error e, s') => (.error e, { w with targets := updateTarget w.targets targetId s' })
      | (.ok _, s') =>
        let targets' := updateTarget w.targets targetId s'
        let targets'' :=
          if ¬ tc.cause ∧ tc.targetChangeType.getD .NO_CHANGE = .REMOVE then
            deleteTarget targets' targetId
          else
            targets'
        runTargetChangeOn tc rest { w with targets := targets'' }

/-- `_onTargetChange`: resolve the id list (broadcast when empty), then run
the dispatch loop. -/
def WatchStream.onTargetChange (w : WatchStream) (tc : TargetChangeMsg) :
    Except WatchTestError Unit × WatchStream :=
  match targetStatesForTargetIds w.targets (tc.targetIds.getD []) true with
  | .error e => (.error e, w)
  | .ok ids => runTargetChangeOn tc ids w

/-- A document-event dispatch loop: applies one `TargetState` action to each
selected id in order. Document events never evict, so with the ids
pre-validated the lookup never misses; the `none` branch mirrors the guard of
a handler invoked on a dead machine. -/
def runDocEventOn (act : TargetState → Except WatchTestError Unit × TargetState) :
    List Nat → WatchStream → Except WatchTestError Unit × WatchStream
  | [], w => (.ok (), w)
  | targetId :: rest, w =>
    match lookupTarget w.targets targetId with
    | none => (.error (.targetStateError "onRemoved() already invoked."), w)
    | some s =>
      match act s with
      | (.error e, s') => (.error e, { w with targets := updateTarget w.targets targetId s' })
      | (.ok _, s') => runDocEventOn act rest { w with targets := updateTarget w.targets targetId s' }

/-- `_onDocumentChange`: the `targetIds` half dispatches `onDocumentChanged`
with `allTargetsIfEmpty = true`, then the `removedTargetIds` half dispatches
`onDocumentRemoved` with `allTargetsIfEmpty = false`. -/
def WatchStream.onDocumentChange (w : WatchStream) (dc : DocumentChangeMsg) :
    Except WatchTestError Unit × WatchStream :=
  match targetStatesForTargetIds w.targets (dc.targetIds.getD []) true with
  | .error e => (.error e, w)
  | .ok addIds =>
    match runDocEventOn (fun s => s.onDocumentChanged dc.documentName) addIds w with
    | (.ok _, w1) =>
      match targetStatesForTargetIds w1.targets (dc.removedTargetIds.getD []) false with
      | .error e => (.error e, w1)
      | .ok remIds => runDocEventOn (fun s => s.onDocumentRemoved dc.documentName) remIds w1
    | r => r

/-- `open()`: installs the transport stream; the transport callbacks and the
returned promise are external. -/
def WatchStream.open_ (w : WatchStream) : Except WatchTestError Unit × WatchStream :=
  if w.streamOpen then
    (.error (.watchError "open() may only be called once"), w)
  else if w.closed then
    (.error (.watchError "open() may not be called after close()"), w)
  else
    (.ok (), { w with streamOpen := true })

/-- `close()`: marks the controller closed unconditionally; closing the
transport stream and the returned promise are external. -/
def WatchStream.close_ (w : WatchStream) : WatchStream :=
  { w with closed := true }

/-- `addTarget`: allocates the next id (the post-increment happens before the
precondition checks), then registers a fresh machine seeded from the resume
descriptor and sends the listen request (the send and the await of the added
promise are external); returns the id of the new handle. -/
def WatchStream.addTarget (w : WatchStream) (targetInfo : WatchStreamAddTargetInfo) :
    Except WatchTestError Nat × WatchStream :=
  let targetId := w.nextTargetId
  let w1 : WatchStream := { w with nextTargetId := w.nextTargetId + 1 }
  if ¬ w1.streamOpen then
    (.error (.watchError "open() must be called before addTarget()"), w1)
  else if w1.closed then
    (.error (.watchError "addTarget() may not be called after close()"), w1)
  else
    let targetState := TargetState.new targetId
      (targetInfo.resume.map (fun r => r.from_.documentPaths))
    (.ok targetId, { w1 with targets := setTarget w1.targets targetId targetState })

/-- `removeTarget`: precondition checks, then an unknown id is a protocol
error; on success the remove request is sent (external) and the registry is
untouched (eviction happens only on the server's `REMOVE` transition). -/
def WatchStream.removeTarget (w : WatchStream) (targetId : Nat) :
    Except WatchTestError Unit × WatchStream :=
  if ¬ w.streamOpen then
    (.error (.watchError "open() must be called before removeTarget()"), w)
  else if w.closed then
    (.error (.watchError "removeTarget() may not be called after close()"), w)
  else
    match lookupTarget w.targets targetId with
    | none => (.error (.watchError "targetId has not been added by addTarget()"), w)
    | some _ => (.ok (), w)

/-- `getInitialSnapshot`: unknown id is a protocol error; otherwise yields the
machine's initial-snapshot promise. -/
def WatchStream.getInitialSnapshot (w : WatchStream) (targetId : Nat) :
    Except WatchTestError (DeferredState TargetSnapshot) :=
  match lookupTarget w.targets targetId with
  | none => .error (.watchError "unknown targetId")
  | some s => .ok s.initialSnapshotDeferred

/-- `getExistenceFilter`: unknown id is a protocol error; otherwise yields the
machine's existence-filter promise. -/
def WatchStream.getExistenceFilter (w : WatchStream) (targetId : Nat) :
    Except WatchTestError (DeferredState (Option BloomFilter)) :=
  match lookupTarget w.targets targetId with
  | none => .error (.watchError "unknown targetId")
  | some s => .ok s.existenceFilterDeferred

/-- Specification helper: the operation threw a `TargetStateError` and left the
machine exactly as it was. -/
def raisesTargetStateError (r : Except WatchTestError Unit × TargetState)
    (s : TargetState) : Prop :=
  (∃ msg, r.1 = Except.error (.targetStateError msg)) ∧ r.2 = s

/-- Specification helper: the result is a `WatchError` (the spec's
`ProtocolStateError`). -/
def isWatchError (r : Except WatchTestError α) : Prop :=
  ∃ msg, r = Except.error (.watchError msg)

/-- Specification helper: every registered machine has accepted `onAdded` and
not yet accepted `onRemoved` (the steady listening state of the registry). -/
def allAddedNotRemoved (targets : List (Nat × TargetState)) : Prop :=
  ∀ p ∈ targets, p.2.added = true ∧ p.2.removed = false

/-- C2: `onAdded → onDocumentChanged "A" → onDocumentChanged "B" → onCurrent →
onNoChange (some "T1")` resolves the initial snapshot with exactly
`({A,B}, "T1")`; in general, for an added and not-removed machine, `onNoChange`
succeeds, resolves the pending initial-snapshot completion with a copy of the
accumulated set and the token exactly when the machine is current and the
token is non-null, leaves the machine untouched when not current or the token
is null, and later qualifying occurrences are no-ops because a settled
completion is never re-assigned. -/
theorem onNoChange_snapshot_spec (s : TargetState) (tok : Option String) :
    ((((((TargetState.new 1 none).onAdded.2.onDocumentChanged "A").2.onDocumentChanged
        "B").2.onCurrent).2.onNoChange (some "T1")).2.initialSnapshotDeferred =
      .resolved { documentPaths := ["A", "B"], resumeToken := "T1" }) ∧
    (s.added = true → s.removed = false →
      (s.onNoChange tok).1 = .ok () ∧
      (∀ t, tok = some t → s.current = true → s.initialSnapshotDeferred = .pending →
        (s.onNoChange tok).2.initialSnapshotDeferred =
          .resolved { documentPaths := s.accumulatedDocumentNames, resumeToken := t }) ∧
      ((s.current = false ∨ tok = none) →
        (s.onNoChange tok).2 = s) ∧
      (∀ d, s.initialSnapshotDeferred = .resolved d →
        (s.onNoChange tok).2.initialSnapshotDeferred = .resolved d)) := by
  constructor
  · decide
  · intro hadd hrem
    refine ⟨?_, ?_, ?_, ?_⟩
    · cases tok <;> by_cases hc : s.current <;>
        simp [TargetState.onNoChange, hadd, hrem, hc]
    · intro t htok hcur hpend
      subst htok
      simp [TargetState.onNoChange, hadd, hrem, hcur, hpend, DeferredState.resolve]
    · intro h
      rcases h with h | h
      · cases tok <;> simp [TargetState.onNoChange, hadd, hrem, h]
      · subst h
        by_cases hc : s.current <;> simp [TargetState.onNoChange, hadd, hrem, hc]
    · intro d hd
      cases tok <;> by_cases hc : s.current <;>
        simp [TargetState.onNoChange, hadd, hrem, hc, hd, DeferredState.resolve]

/-- Witness for C2 at a concrete machine: added, not removed, current, with a
pending snapshot completion and accumulated set `{A}`. -/
theorem onNoChange_snapshot_spec_witness :
    ({ TargetState.new 1 none with
        added := true,
        current := true,
        accumulatedDocumentNames := ["A"] } : TargetState).added = true ∧
    (({ TargetState.new 1 none with
        added := true,
        current := true,
        accumulatedDocumentNames := ["A"] } : TargetState).onNoChange
        (some "T1")).2.initialSnapshotDeferred =
      .resolved { documentPaths := ["A"], resumeToken := "T1" } :=
  ⟨rfl,
    ((onNoChange_snapshot_spec
      { TargetState.new 1 none with
        added := true,
        current := true,
        accumulatedDocumentNames := ["A"] }
      (some "T1")).2 rfl rfl).2.1 "T1" rfl rfl rfl⟩

/-- Helper: an operation result that is literally a `TargetStateError` paired
with the untouched machine satisfies `raisesTargetStateError`. -/
theorem raisesTargetStateError_of_eq {r : Except WatchTestError Unit × TargetState}
    {s : TargetState} (m : String)
    (h : r = (Except.error (.targetStateError m), s)) : raisesTargetStateError r s :=
  ⟨⟨m, by rw [h]⟩, by rw [h]⟩

/-- C3: every mutating event other than `onAdded` raises `TargetStateError`
(the spec's `StateInvariantError`) when invoked before `onAdded` was accepted
(`added = false`) or after `onRemoved` was accepted (`removed = true`);
`onAdded` raises it when invoked a second time (`added = true`) and
`onRemoved` when invoked a second time (`removed = true`); and every such
error leaves the machine — flags and accumulated set included — exactly
unchanged. -/
theorem targetState_guard_spec (s : TargetState) (name : String)
    (f : ExistenceFilterMsg) (tok : Option String) :
    (s.added = false →
      raisesTargetStateError s.onCurrent s ∧
      raisesTargetStateError s.onReset s ∧
      raisesTargetStateError (s.onNoChange tok) s ∧
      raisesTargetStateError (s.onDocumentChanged name) s ∧
      raisesTargetStateError (s.onDocumentRemoved name) s ∧
      raisesTargetStateError (s.onExistenceFilter f) s ∧
      raisesTargetStateError s.onRemoved s) ∧
    (s.removed = true →
      raisesTargetStateError s.onCurrent s ∧
      raisesTargetStateError s.onReset s ∧
      raisesTargetStateError (s.onNoChange tok) s ∧
      raisesTargetStateError (s.onDocumentChanged name) s ∧
      raisesTargetStateError (s.onDocumentRemoved name) s ∧
      raisesTargetStateError (s.onExistenceFilter f) s ∧
      raisesTargetStateError s.onRemoved s) ∧
    (s.added = true → raisesTargetStateError s.onAdded s) := by
  refine ⟨fun h => ?_, fun h => ?_, fun h => ?_⟩
  · refine ⟨raisesTargetStateError_of_eq "onCurrent() invoked before onAdded()."
        (by simp [TargetState.onCurrent, h]),
      raisesTargetStateError_of_eq "onReset() invoked before onAdded()."
        (by simp [TargetState.onReset, h]),
      raisesTargetStateError_of_eq "onNoChange() invoked before onAdded()."
        (by simp [TargetState.onNoChange, h]),
      raisesTargetStateError_of_eq "onDocumentChanged() invoked when not added."
        (by simp [TargetState.onDocumentChanged, h]),
      raisesTargetStateError_of_eq "onDocumentRemoved() invoked when not added."
        (by simp [TargetState.onDocumentRemoved, h]),
      raisesTargetStateError_of_eq "onExistenceFilter() invoked when not added."
        (by simp [TargetState.onExistenceFilter, h]), ?_⟩
    by_cases hr : s.removed = true
    · exact raisesTargetStateError_of_eq "onRemoved() already invoked."
        (by simp [TargetState.onRemoved, hr])
    · simp only [Bool.not_eq_true] at hr
      exact raisesTargetStateError_of_eq "onRemoved() invoked before onAdded()."
        (by simp [TargetState.onRemoved, h, hr])
  · by_cases ha : s.added = true
    · exact ⟨raisesTargetStateError_of_eq "onCurrent() invoked after onRemoved()."
          (by simp [TargetState.onCurrent, h, ha]),
        raisesTargetStateError_of_eq "onReset() invoked after onRemoved()."
          (by simp [TargetState.onReset, h, ha]),
        raisesTargetStateError_of_eq "onNoChange() invoked after onRemoved()."
          (by simp [TargetState.onNoChange, h, ha]),
        raisesTargetStateError_of_eq "onDocumentChanged() invoked after onRemoved()."
          (by simp [TargetState.onDocumentChanged, h, ha]),
        raisesTargetStateError_of_eq "onDocumentRemoved() invoked after onRemoved()."
          (by simp [TargetState.onDocumentRemoved, h, ha]),
        raisesTargetStateError_of_eq "onExistenceFilter() invoked after onRemoved()."
          (by simp [TargetState.onExistenceFilter, h, ha]),
        raisesTargetStateError_of_eq "onRemoved() already invoked."
          (by simp [TargetState.onRemoved, h])⟩
    · simp only [Bool.not_eq_true] at ha
      exact ⟨raisesTargetStateError_of_eq "onCurrent() invoked before onAdded()."
          (by simp [TargetState.onCurrent, ha]),
        raisesTargetStateError_of_eq "onReset() invoked before onAdded()."
          (by simp [TargetState.onReset, ha]),
        raisesTargetStateError_of_eq "onNoChange() invoked before onAdded()."
          (by simp [TargetState.onNoChange, ha]),
        raisesTargetStateError_of_eq "onDocumentChanged() invoked when not added."
          (by simp [TargetState.onDocumentChanged, ha]),
        raisesTargetStateError_of_eq "onDocumentRemoved() invoked when not added."
          (by simp [TargetState.onDocumentRemoved, ha]),
        raisesTargetStateError_of_eq "onExistenceFilter() invoked when not added."
          (by simp [TargetState.onExistenceFilter, ha]),
        raisesTargetStateError_of_eq "onRemoved() already invoked."
          (by simp [TargetState.onRemoved, h])⟩
  · exact raisesTargetStateError_of_eq "onAdded() already invoked."
      (by simp [TargetState.onAdded, h])

/-- Witness for C3 at concrete machines: a fresh (never-added) machine rejects
`onCurrent`, and an added machine rejects a second `onAdded`. -/
theorem targetState_guard_spec_witness :
    (TargetState.new 1 none).added = false ∧
    raisesTargetStateError (TargetState.new 1 none).onCurrent (TargetState.new 1 none) ∧
    ({ TargetState.new 1 none with added := true } : TargetState).added = true ∧
    raisesTargetStateError ({ TargetState.new 1 none with added := true } : TargetState).onAdded
      { TargetState.new 1 none with added := true } :=
  ⟨rfl,
    ((targetState_guard_spec (TargetState.new 1 none) "D"
      { targetId := none, unchangedNames := none } none).1 rfl).1,
    rfl,
    (targetState_guard_spec { TargetState.new 1 none with added := true } "D"
      { targetId := none, unchangedNames := none } none).2.2 rfl⟩

/-- C5: existence-filter validation. Absence of `unchangedNames` yields the
sentinel `none` (not an error); with a payload, effective padding outside
`[0,7]` fails with `InvalidBloomFilterError`, a negative effective hash count
fails with `InvalidBloomFilterError`, hash count exactly `0` together with a
non-empty decoded bitmap fails with `InvalidBloomFilterError`, and every other
input constructs the filter value from the decoded bytes, padding and hash
count. -/
theorem createBloomFilterFrom_spec (ef : ExistenceFilterMsg) :
    (ef.unchangedNames = none → createBloomFilterFrom ef = .ok none) ∧
    (∀ un, ef.unchangedNames = some un →
      ((((un.bits.bind fun b => b.padding).getD 0) < 0 ∨
          ((un.bits.bind fun b => b.padding).getD 0) > 7) →
        ∃ m, createBloomFilterFrom ef = .error (.invalidBloomFilterError m)) ∧
      (0 ≤ ((un.bits.bind fun b => b.padding).getD 0) →
        ((un.bits.bind fun b => b.padding).getD 0) ≤ 7 →
        (un.hashCount.getD 0) < 0 →
        ∃ m, createBloomFilterFrom ef = .error (.invalidBloomFilterError m)) ∧
      (0 ≤ ((un.bits.bind fun b => b.padding).getD 0) →
        ((un.bits.bind fun b => b.padding).getD 0) ≤ 7 →
        (un.hashCount.getD 0) = 0 →
        ((un.bits.bind fun b => b.bitmap).getD []) ≠ [] →
        ∃ m, createBloomFilterFrom ef = .error (.invalidBloomFilterError m)) ∧
      (0 ≤ ((un.bits.bind fun b => b.padding).getD 0) →
        ((un.bits.bind fun b => b.padding).getD 0) ≤ 7 →
        0 ≤ (un.hashCount.getD 0) →
        ((un.hashCount.getD 0) = 0 → ((un.bits.bind fun b => b.bitmap).getD []) = []) →
        createBloomFilterFrom ef = .ok (some
          { bitmap := ((un.bits.bind fun b => b.bitmap).getD [])
            padding := ((un.bits.bind fun b => b.padding).getD 0)
            hashCount := (un.hashCount.getD 0) }))) := by
  constructor
  · intro h
    simp [createBloomFilterFrom, h]
  · intro un hun
    refine ⟨?_, ?_, ?_, ?_⟩
    · intro hp
      refine ⟨"invalid padding size", ?_⟩
      simp only [createBloomFilterFrom, hun]
      rw [if_pos]
      rcases hp with hp | hp
      · exact Or.inl hp
      · exact Or.inr hp
    · intro hp1 hp2 hh
      refine ⟨"invalid hash count", ?_⟩
      simp only [createBloomFilterFrom, hun]
      rw [if_neg (by omega), if_pos hh]
    · intro hp1 hp2 hh hb
      refine ⟨"non-zero hash count when bitmap size is zero", ?_⟩
      simp only [createBloomFilterFrom, hun]
      rw [if_neg (by omega), if_neg (by omega), if_pos ⟨hh, by
        simpa [List.length_pos] using hb⟩]
    · intro hp1 hp2 hh hbz
      simp only [createBloomFilterFrom, hun]
      rw [if_neg (by omega), if_neg (by omega), if_neg ?_]
      intro hcontra
      rcases hcontra with ⟨h0, hlen⟩
      have := hbz h0
      rw [this] at hlen
      simp at hlen

/-- Witness for C5 at concrete payloads: padding 8 is rejected, and a payload
with padding 3, hash count 2 and bitmap bytes `[170]` constructs the filter
(fields in constructor order: targetId, unchangedNames = (bits =
(padding, bitmap), hashCount)). -/
theorem createBloomFilterFrom_spec_witness :
    (∃ m, createBloomFilterFrom ⟨some 1, some ⟨some ⟨some 8, none⟩, some 0⟩⟩ =
      .error (.invalidBloomFilterError m)) ∧
    createBloomFilterFrom ⟨some 1, some ⟨some ⟨some 3, some [170]⟩, some 2⟩⟩ =
      .ok (some { bitmap := [170], padding := 3, hashCount := 2 }) :=
  ⟨((createBloomFilterFrom_spec ⟨some 1, some ⟨some ⟨some 8, none⟩, some 0⟩⟩).2
      ⟨some ⟨some 8, none⟩, some 0⟩ rfl).1 (by decide),
    ((createBloomFilterFrom_spec ⟨some 1, some ⟨some ⟨some 3, some [170]⟩, some 2⟩⟩).2
      ⟨some ⟨some 3, some [170]⟩, some 2⟩ rfl).2.2.2
      (by decide) (by decide) (by decide) (by decide)⟩

/-- C6: for an added, not-removed machine, `onReset` succeeds, clears
`current` and empties the accumulated member set entirely (all other fields
unchanged); if moreover the initial-snapshot completion is still pending, a
subsequent `onCurrent` followed by `onNoChange` with a non-null token (with no
intervening deltas) succeeds and resolves a snapshot whose member set is
empty. -/
theorem onReset_spec (s : TargetState) (t : String) :
    s.added = true → s.removed = false →
    (s.onReset = (.ok (), { s with current := false, accumulatedDocumentNames := [] })) ∧
    (s.initialSnapshotDeferred = .pending →
      (s.onReset.2.onCurrent).1 = .ok () ∧
      ((s.onReset.2.onCurrent).2.onNoChange (some t)).1 = .ok () ∧
      ((s.onReset.2.onCurrent).2.onNoChange (some t)).2.initialSnapshotDeferred =
        .resolved { documentPaths := [], resumeToken := t }) := by
  intro hadd hrem
  constructor
  · simp [TargetState.onReset, hadd, hrem]
  · intro hpend
    refine ⟨?_, ?_, ?_⟩ <;>
      simp [TargetState.onReset, TargetState.onCurrent, TargetState.onNoChange,
        hadd, hrem, hpend, DeferredState.resolve]

/-- Witness for C6: a concrete added machine that accumulated `{A, B}` resets
to an empty set and then snapshots the empty set with token `T2`. -/
theorem onReset_spec_witness :
    ({ TargetState.new 1 none with
        added := true,
        accumulatedDocumentNames := ["A", "B"] } : TargetState).added = true ∧
    (((({ TargetState.new 1 none with
        added := true,
        accumulatedDocumentNames := ["A", "B"] } : TargetState).onReset.2.onCurrent).2.onNoChange
        (some "T2")).2.initialSnapshotDeferred =
      .resolved { documentPaths := [], resumeToken := "T2" }) :=
  ⟨rfl,
    ((onReset_spec
      { TargetState.new 1 none with
        added := true,
        accumulatedDocumentNames := ["A", "B"] } "T2" rfl rfl).2 rfl).2.2⟩

/-- Registry lemma: updating a registered key makes it the stored value. -/
theorem lookupTarget_update_self (l : List (Nat × TargetState)) (i : Nat)
    (s : TargetState) (h : (lookupTarget l i).isSome) :
    lookupTarget (updateTarget l i s) i = some s := by
  induction l with
  | nil => simp [lookupTarget] at h
  | cons p rest ih =>
    by_cases hp : p.1 = i
    · simp [lookupTarget, updateTarget, List.find?, hp]
    · simp only [lookupTarget, updateTarget, List.map_cons, if_neg hp] at *
      rw [List.find?_cons_of_neg _ (by simpa using hp)] at h
      rw [List.find?_cons_of_neg _ (by simpa using hp)]
      exact ih h

/-- Registry lemma: updating one key leaves every other key's lookup intact. -/
theorem lookupTarget_update_other (l : List (Nat × TargetState)) (i j : Nat)
    (s : TargetState) (h : j ≠ i) :
    lookupTarget (updateTarget l i s) j = lookupTarget l j := by
  induction l with
  | nil => simp [lookupTarget, updateTarget]
  | cons p rest ih =>
    by_cases hp : p.1 = i
    · simp only [lookupTarget, updateTarget, List.map_cons, if_pos hp]
      rw [List.find?_cons_of_neg _ (by simpa using Ne.symm h),
        List.find?_cons_of_neg _ (by rw [hp]; simpa using Ne.symm h)]
      exact ih
    · simp only [lookupTarget, updateTarget, List.map_cons, if_neg hp]
      by_cases hj : p.1 = j
      · rw [List.find?_cons_of_pos _ (by simpa using hj),
          List.find?_cons_of_pos _ (by simpa using hj)]
      · rw [List.find?_cons_of_neg _ (by simpa using hj),
          List.find?_cons_of_neg _ (by simpa using hj)]
        exact ih

/-- Registry lemma: a deleted key is no longer registered. -/
theorem lookupTarget_delete_self (l : List (Nat × TargetState)) (i : Nat) :
    lookupTarget (deleteTarget l i) i = none := by
  induction l with
  | nil => simp [lookupTarget, deleteTarget]
  | cons p rest ih =>
    by_cases hp : p.1 = i
    · rw [show deleteTarget (p :: rest) i = deleteTarget rest i by
        simp [deleteTarget, hp]]
      exact ih
    · rw [show deleteTarget (p :: rest) i = p :: deleteTarget rest i by
        simp [deleteTarget, hp]]
      simp only [lookupTarget] at ih ⊢
      rw [List.find?_cons_of_neg _ (by simpa using hp)]
      exact ih

/-- Registry lemma: deleting one key leaves every other key's lookup intact. -/
theorem lookupTarget_delete_other (l : List (Nat × TargetState)) (i j : Nat)
    (h : j ≠ i) :
    lookupTarget (deleteTarget l i) j = lookupTarget l j := by
  induction l with
  | nil => simp [lookupTarget, deleteTarget]
  | cons p rest ih =>
    by_cases hp : p.1 = i
    · rw [show deleteTarget (p :: rest) i = deleteTarget rest i by
        simp [deleteTarget, hp]]
      rw [ih]
      simp only [lookupTarget]
      rw [List.find?_cons_of_neg _ (by simp only [hp]; simpa using Ne.symm h)]
    · rw [show deleteTarget (p :: rest) i = p :: deleteTarget rest i by
        simp [deleteTarget, hp]]
      by_cases hj : p.1 = j
      · simp only [lookupTarget]
        rw [List.find?_cons_of_pos _ (by simpa using hj),
          List.find?_cons_of_pos _ (by simpa using hj)]
      · simp only [lookupTarget]
        rw [List.find?_cons_of_neg _ (by simpa using hj),
          List.find?_cons_of_neg _ (by simpa using hj)]
        exact ih

/-- Registry lemma: `Map.set` registers the value under the key. -/
theorem lookupTarget_setTarget_self (l : List (Nat × TargetState)) (i : Nat)
    (s : TargetState) :
    lookupTarget (setTarget l i s) i = some s := by
  by_cases h : (List.find? (fun p => p.1 = i) l).isSome
  · rw [setTarget, if_pos h]
    exact lookupTarget_update_self l i s (by simpa [lookupTarget] using h)
  · rw [setTarget, if_neg h]
    induction l with
    | nil => simp [lookupTarget]
    | cons p rest ih =>
      by_cases hp : p.1 = i
      · exact absurd (by simp [List.find?_cons_of_pos, hp]) h
      · simp only [List.cons_append, lookupTarget]
        rw [List.find?_cons_of_neg _ (by simpa using hp)]
        rw [List.find?_cons_of_neg _ (by simpa using hp)] at h
        exact ih h

/-- Registry lemma: updating a key preserves the key list. -/
theorem keys_updateTarget (l : List (Nat × TargetState)) (i : Nat) (s : TargetState) :
    (updateTarget l i s).map Prod.fst = l.map Prod.fst := by
  induction l with
  | nil => simp [updateTarget]
  | cons p rest ih =>
    by_cases hp : p.1 = i <;> simp_all [updateTarget]

/-- C9: `open()` raises `WatchError` (the spec's `ProtocolStateError`) when a
stream is already installed (a second call) or when `close()` was called, and
leaves the controller unchanged; a first successful `open()` installs the
stream, so a second call errors; `close()` marks the controller closed; and
`addTarget`/`removeTarget` raise `WatchError` whenever no stream was ever
installed or the controller is closed. -/
theorem lifecycle_preconditions_spec (w : WatchStream)
    (info : WatchStreamAddTargetInfo) (targetId : Nat) :
    ((w.streamOpen = true ∨ w.closed = true) →
      isWatchError w.open_.1 ∧ w.open_.2 = w) ∧
    (w.streamOpen = false → w.closed = false →
      w.open_ = (.ok (), { w with streamOpen := true })) ∧
    (w.close_.closed = true) ∧
    ((w.streamOpen = false ∨ w.closed = true) →
      isWatchError (w.addTarget info).1 ∧
      isWatchError (w.removeTarget targetId).1 ∧ (w.removeTarget targetId).2 = w) := by
  refine ⟨?_, ?_, ?_, ?_⟩
  · intro h
    rcases h with h | h
    · exact ⟨⟨"open() may only be called once", by simp [WatchStream.open_, h]⟩,
        by simp [WatchStream.open_, h]⟩
    · by_cases hs : w.streamOpen = true
      · exact ⟨⟨"open() may only be called once", by simp [WatchStream.open_, hs]⟩,
          by simp [WatchStream.open_, hs]⟩
      · simp only [Bool.not_eq_true] at hs
        exact ⟨⟨"open() may not be called after close()", by simp [WatchStream.open_, hs, h]⟩,
          by simp [WatchStream.open_, hs, h]⟩
  · intro hs hc
    simp [WatchStream.open_, hs, hc]
  · simp [WatchStream.close_]
  · intro h
    rcases h with h | h
    · exact ⟨⟨"open() must be called before addTarget()", by simp [WatchStream.addTarget, h]⟩,
        ⟨"open() must be called before removeTarget()", by simp [WatchStream.removeTarget, h]⟩,
        by simp [WatchStream.removeTarget, h]⟩
    · by_cases hs : w.streamOpen = true
      · exact ⟨⟨"addTarget() may not be called after close()",
            by simp [WatchStream.addTarget, hs, h]⟩,
          ⟨"removeTarget() may not be called after close()",
            by simp [WatchStream.removeTarget, hs, h]⟩,
          by simp [WatchStream.removeTarget, hs, h]⟩
      · simp only [Bool.not_eq_true] at hs
        exact ⟨⟨"open() must be called before addTarget()",
            by simp [WatchStream.addTarget, hs]⟩,
          ⟨"open() must be called before removeTarget()",
            by simp [WatchStream.removeTarget, hs]⟩,
          by simp [WatchStream.removeTarget, hs]⟩

/-- Witness for C9: a never-opened controller rejects `removeTarget`, and an
opened controller rejects a second `open()` (controller fields in constructor
order: streamOpen, closed, nextTargetId, targets). -/
theorem lifecycle_preconditions_spec_witness :
    ((⟨false, false, 1, []⟩ : WatchStream).streamOpen = false ∨
      (⟨false, false, 1, []⟩ : WatchStream).closed = true) ∧
    isWatchError ((⟨false, false, 1, []⟩ : WatchStream).removeTarget 1).1 ∧
    isWatchError (⟨true, false, 1, []⟩ : WatchStream).open_.1 :=
  ⟨Or.inl rfl,
    ((lifecycle_preconditions_spec ⟨false, false, 1, []⟩
      ⟨"p", "c", "k", "v", none⟩ 1).2.2.2 (Or.inl rfl)).2.1,
    ((lifecycle_preconditions_spec ⟨true, false, 1, []⟩
      ⟨"p", "c", "k", "v", none⟩ 1).1 (Or.inl rfl)).1⟩

/-- C10: `addTarget` increments the id counter before its precondition
checks: every call, failing or not, bumps `nextTargetId` by one; a failing
call (never opened, or closed) raises `WatchError` and leaves everything but
the counter — registry included — unchanged; a successful call returns the
pre-call counter value and registers a machine under it; and a successful
call immediately following any `addTarget` call returns the predecessor
call's consumed id plus one, so successful ids are strictly increasing but
skip ids consumed by failed calls. -/
theorem addTarget_id_allocation_spec (w : WatchStream)
    (info info2 : WatchStreamAddTargetInfo) :
    ((w.addTarget info).2.nextTargetId = w.nextTargetId + 1) ∧
    ((w.streamOpen = false ∨ w.closed = true) →
      isWatchError (w.addTarget info).1 ∧
      (w.addTarget info).2 = { w with nextTargetId := w.nextTargetId + 1 }) ∧
    (w.streamOpen = true → w.closed = false →
      (w.addTarget info).1 = .ok w.nextTargetId ∧
      lookupTarget (w.addTarget info).2.targets w.nextTargetId =
        some (TargetState.new w.nextTargetId
          (info.resume.map (fun r => r.from_.documentPaths)))) ∧
    (∀ k, ((w.addTarget info).2.addTarget info2).1 = .ok k → k = w.nextTargetId + 1) := by
  refine ⟨?_, ?_, ?_, ?_⟩
  · by_cases hs : w.streamOpen = true <;> by_cases hc : w.closed = true <;>
      simp_all [WatchStream.addTarget]
  · intro h
    rcases h with h | h
    · exact ⟨⟨"open() must be called before addTarget()",
        by simp [WatchStream.addTarget, h]⟩, by simp [WatchStream.addTarget, h]⟩
    · by_cases hs : w.streamOpen = true
      · exact ⟨⟨"addTarget() may not be called after close()",
          by simp [WatchStream.addTarget, hs, h]⟩, by simp [WatchStream.addTarget, hs, h]⟩
      · simp only [Bool.not_eq_true] at hs
        exact ⟨⟨"open() must be called before addTarget()",
          by simp [WatchStream.addTarget, hs]⟩, by simp [WatchStream.addTarget, hs]⟩
  · intro hs hc
    refine ⟨by simp [WatchStream.addTarget, hs, hc], ?_⟩
    have : (w.addTarget info).2.targets =
        setTarget w.targets w.nextTargetId
          (TargetState.new w.nextTargetId
            (info.resume.map (fun r => r.from_.documentPaths))) := by
      simp [WatchStream.addTarget, hs, hc]
    rw [this]
    exact lookupTarget_setTarget_self _ _ _
  · intro k hk
    have h2 : (w.addTarget info).2.nextTargetId = w.nextTargetId + 1 := by
      by_cases hs : w.streamOpen = true <;> by_cases hc : w.closed = true <;>
        simp_all [WatchStream.addTarget]
    by_cases hs : ((w.addTarget info).2).streamOpen = true <;>
      by_cases hc : ((w.addTarget info).2).closed = true <;>
      simp_all [WatchStream.addTarget]

/-- Witness for C10: on an open controller with an empty registry, a failed
call is impossible, so witness the successful path and the consecutive-call
id; and on a closed controller the failing call still consumes the id. -/
theorem addTarget_id_allocation_spec_witness :
    ((⟨true, false, 7, []⟩ : WatchStream).streamOpen = true ∧
      ((⟨true, false, 7, []⟩ : WatchStream).addTarget ⟨"p", "c", "k", "v", none⟩).1 = .ok 7) ∧
    ((⟨true, true, 7, []⟩ : WatchStream).closed = true ∧
      ((⟨true, true, 7, []⟩ : WatchStream).addTarget
        ⟨"p", "c", "k", "v", none⟩).2.nextTargetId = 8) :=
  ⟨⟨rfl,
    ((addTarget_id_allocation_spec ⟨true, false, 7, []⟩
      ⟨"p", "c", "k", "v", none⟩ ⟨"p", "c", "k", "v", none⟩).2.2.1 rfl rfl).1⟩,
    ⟨rfl,
    (addTarget_id_allocation_spec ⟨true, true, 7, []⟩
      ⟨"p", "c", "k", "v", none⟩ ⟨"p", "c", "k", "v", none⟩).1⟩⟩

/-- Registry lemma: a key is registered exactly when it occurs in the key
list. -/
theorem lookupTarget_isSome_iff (l : List (Nat × TargetState)) (j : Nat) :
    (lookupTarget l j).isSome ↔ j ∈ l.map Prod.fst := by
  induction l with
  | nil => simp [lookupTarget]
  | cons p rest ih =>
    by_cases hp : p.1 = j
    · simp [lookupTarget, List.find?_cons_of_pos, hp]
    · simp only [lookupTarget, List.map_cons, List.mem_cons]
      rw [List.find?_cons_of_neg _ (by simpa using hp)]
      simp only [lookupTarget] at ih
      rw [ih]
      simp [Ne.symm hp]

/-- Registry lemma: a successful lookup exhibits a registry entry. -/
theorem mem_of_lookupTarget (l : List (Nat × TargetState)) (i : Nat)
    (s : TargetState) (h : lookupTarget l i = some s) : (i, s) ∈ l := by
  simp only [lookupTarget, Option.map_eq_some'] at h
  rcases h with ⟨p, hp, hps⟩
  have hmem := List.mem_of_find?_eq_some hp
  have hkey : p.1 = i := by simpa using List.find?_some hp
  have : p = (i, s) := by
    cases p
    simp_all
  rwa [this] at hmem

/-- Registry lemma: updating with a still-listening machine preserves the
registry-wide listening invariant. -/
theorem allAddedNotRemoved_update (l : List (Nat × TargetState)) (i : Nat)
    (s : TargetState) (h : allAddedNotRemoved l)
    (hs : s.added = true ∧ s.removed = false) :
    allAddedNotRemoved (updateTarget l i s) := by
  intro p hp
  simp only [updateTarget, List.mem_map] at hp
  rcases hp with ⟨q, hq, hqp⟩
  by_cases hqi : q.1 = i
  · rw [if_pos hqi] at hqp
    rw [← hqp]
    exact hs
  · rw [if_neg hqi] at hqp
    rw [← hqp]
    exact h q hq

/-- Dispatch lemma: when the message carries an error cause or its change type
is not `REMOVE`, the target-change loop never evicts, so it coincides with a
plain per-machine dispatch of the message's action. -/
theorem runTargetChangeOn_eq_runDocEventOn (tc : TargetChangeMsg)
    (hne : tc.cause = true ∨ tc.targetChangeType.getD .NO_CHANGE ≠ .REMOVE)
    (ids : List Nat) (w : WatchStream) :
    runTargetChangeOn tc ids w = runDocEventOn (applyTargetChangeTo tc) ids w := by
  induction ids generalizing w with
  | nil => rfl
  | cons i rest ih =>
    rcases h : lookupTarget w.targets i with _ | s
    · simp only [runTargetChangeOn, runDocEventOn, h]
    · rcases ha : applyTargetChangeTo tc s with ⟨r, s'⟩
      cases r with
      | error e => simp only [runTargetChangeOn, runDocEventOn, h, ha]
      | ok u =>
        have hcond : ¬ (¬ tc.cause = true ∧
            tc.targetChangeType.getD .NO_CHANGE = .REMOVE) := by
          rcases hne with hc | ht
          · simp [hc]
          · simp [ht]
        simp only [runTargetChangeOn, runDocEventOn, h, ha, if_neg hcond]
        exact ih _

/-- Dispatch lemma: a per-machine dispatch loop never touches a machine whose
id is not in the dispatched list, whether or not the loop aborts. -/
theorem runDocEventOn_not_mem
    (act : TargetState → Except WatchTestError Unit × TargetState)
    (ids : List Nat) (w : WatchStream) (j : Nat) (hj : j ∉ ids) :
    lookupTarget (runDocEventOn act ids w).2.targets j = lookupTarget w.targets j := by
  induction ids generalizing w with
  | nil => rfl
  | cons i rest ih =>
    have hji : j ≠ i := fun h => hj (by simp [h])
    have hjr : j ∉ rest := fun h => hj (by simp [h])
    rcases h : lookupTarget w.targets i with _ | s
    · simp only [runDocEventOn, h]
    · rcases ha : act s with ⟨r, s'⟩
      cases r with
      | error e =>
        simp only [runDocEventOn, h, ha]
        simpa using lookupTarget_update_other w.targets i j s' hji
      | ok u =>
        simp only [runDocEventOn, h, ha]
        rw [ih _ hjr]
        simpa using lookupTarget_update_other w.targets i j s' hji

/-- Dispatch lemma: over a duplicate-free id list whose every machine accepts
the action, the loop succeeds and each listed machine ends up exactly as the
action leaves it. -/
theorem runDocEventOn_nodup_hit
    (act : TargetState → Except WatchTestError Unit × TargetState)
    (ids : List Nat) (w : WatchStream) (hnd : ids.Nodup)
    (hok : ∀ i ∈ ids, ∃ s, lookupTarget w.targets i = some s ∧ (act s).1 = .ok ()) :
    (runDocEventOn act ids w).1 = .ok () ∧
    ∀ i ∈ ids, ∀ s, lookupTarget w.targets i = some s →
      lookupTarget (runDocEventOn act ids w).2.targets i = some (act s).2 := by
  induction ids generalizing w with
  | nil => exact ⟨rfl, by simp⟩
  | cons i rest ih =>
    have hnd' := hnd
    rw [List.nodup_cons] at hnd'
    obtain ⟨hir, hndr⟩ := hnd'
    obtain ⟨s, hs, hact⟩ := hok i (by simp)
    rcases ha : act s with ⟨r, s'⟩
    rw [ha] at hact
    simp only at hact
    subst hact
    have hup : lookupTarget (updateTarget w.targets i s') i = some s' :=
      lookupTarget_update_self w.targets i s' (by simp [hs])
    have hih := ih { w with targets := updateTarget w.targets i s' } hndr (by
      intro j hj
      obtain ⟨sj, hsj, hactj⟩ := hok j (by simp [hj])
      have hji : j ≠ i := fun he => hir (he ▸ hj)
      exact ⟨sj, by rw [lookupTarget_update_other w.targets i j s' hji]; exact hsj, hactj⟩)
    constructor
    · simp only [runDocEventOn, hs, ha]
      exact hih.1
    · intro j hj sj hsj
      rcases List.mem_cons.mp hj with hji | hjr
      · subst hji
        have : sj = s := by
          rw [hs] at hsj
          exact (Option.some.injEq _ _ ▸ hsj).symm
        subst this
        simp only [runDocEventOn, hs, ha]
        rw [runDocEventOn_not_mem act rest _ j hir]
        simpa [ha] using hup
      · have hji : j ≠ i := fun he => hir (he ▸ hjr)
        simp only [runDocEventOn, hs, ha]
        exact hih.2 j hjr sj
          (by rw [lookupTarget_update_other w.targets i j s' hji]; exact hsj)

/-- Dispatch lemma: over ids that are all registered in a registry whose every
machine is listening (added, not removed), a document-delta dispatch (an
action that succeeds on and preserves the listening state) succeeds, preserves
the key list and preserves the registry-wide listening invariant. -/
theorem runDocEventOn_ok
    (act : TargetState → Except WatchTestError Unit × TargetState)
    (Hact : ∀ s, s.added = true → s.removed = false →
      (act s).1 = .ok () ∧ (act s).2.added = true ∧ (act s).2.removed = false)
    (ids : List Nat) (w : WatchStream)
    (hok : allAddedNotRemoved w.targets)
    (hreg : ∀ j ∈ ids, (lookupTarget w.targets j).isSome) :
    (runDocEventOn act ids w).1 = .ok () ∧
    (runDocEventOn act ids w).2.targets.map Prod.fst = w.targets.map Prod.fst ∧
    allAddedNotRemoved (runDocEventOn act ids w).2.targets := by
  induction ids generalizing w with
  | nil => exact ⟨rfl, rfl, hok⟩
  | cons i rest ih =>
    have hs0 := hreg i (by simp)
    rcases hs : lookupTarget w.targets i with _ | s
    · rw [hs] at hs0
      simp at hs0
    · have hmem := mem_of_lookupTarget w.targets i s hs
      obtain ⟨hsa, hsr⟩ := hok (i, s) hmem
      obtain ⟨hact1, hact2, hact3⟩ := Hact s hsa hsr
      rcases ha : act s with ⟨r, s'⟩
      rw [ha] at hact1 hact2 hact3
      simp only at hact1 hact2 hact3
      subst hact1
      have hok1 : allAddedNotRemoved (updateTarget w.targets i s') :=
        allAddedNotRemoved_update w.targets i s' hok ⟨hact2, hact3⟩
      have hreg1 : ∀ j ∈ rest, (lookupTarget (updateTarget w.targets i s') j).isSome := by
        intro j hj
        rw [lookupTarget_isSome_iff, keys_updateTarget, ← lookupTarget_isSome_iff]
        exact hreg j (by simp [hj])
      have hih := ih { w with targets := updateTarget w.targets i s' } hok1 hreg1
      refine ⟨?_, ?_, ?_⟩
      · simp only [runDocEventOn, hs, ha]
        exact hih.1
      · simp only [runDocEventOn, hs, ha]
        rw [hih.2.1]
        simpa using keys_updateTarget w.targets i s'
      · simp only [runDocEventOn, hs, ha]
        exact hih.2.2

/-- Dispatch lemma: after dispatching `onDocumentRemoved name` over registered
ids of a listening registry, the name is absent from the accumulated set of
any machine that either was named in the list or already lacked the name. -/
theorem runDocEventOn_removed_absent (name : String) (ids : List Nat)
    (w : WatchStream) (i : Nat)
    (hok : allAddedNotRemoved w.targets)
    (hreg : ∀ j ∈ ids, (lookupTarget w.targets j).isSome)
    (h : i ∈ ids ∨ ∃ s, lookupTarget w.targets i = some s ∧
      name ∉ s.accumulatedDocumentNames) :
    ∃ s', lookupTarget
        (runDocEventOn (fun s => s.onDocumentRemoved name) ids w).2.targets i = some s' ∧
      name ∉ s'.accumulatedDocumentNames := by
  induction ids generalizing w with
  | nil =>
    rcases h with h | h
    · simp at h
    · exact h
  | cons j rest ih =>
    have hs0 := hreg j (by simp)
    rcases hs : lookupTarget w.targets j with _ | s
    · rw [hs] at hs0
      simp at hs0
    · have hmem := mem_of_lookupTarget w.targets j s hs
      have hsa : s.added = true := (hok (j, s) hmem).1
      have hsr : s.removed = false := (hok (j, s) hmem).2
      have hact : s.onDocumentRemoved name =
          (.ok (), { s with
            current := false
            accumulatedDocumentNames := setDelete s.accumulatedDocumentNames name }) := by
        simp [TargetState.onDocumentRemoved, hsa, hsr]
      have hok1 : allAddedNotRemoved (updateTarget w.targets j _) :=
        allAddedNotRemoved_update w.targets j
          { s with current := false
                   accumulatedDocumentNames := setDelete s.accumulatedDocumentNames name }
          hok ⟨hsa, hsr⟩
      have hreg1 : ∀ j' ∈ rest, (lookupTarget (updateTarget w.targets j
          { s with current := false
                   accumulatedDocumentNames := setDelete s.accumulatedDocumentNames name })
          j').isSome := by
        intro j' hj'
        rw [lookupTarget_isSome_iff, keys_updateTarget, ← lookupTarget_isSome_iff]
        exact hreg j' (by simp [hj'])
      simp only [runDocEventOn, hs, hact]
      apply ih _ hok1 hreg1
      by_cases hij : i = j
      · subst hij
        right
        refine ⟨_, lookupTarget_update_self w.targets i _ (by simp [hs]), ?_⟩
        simp [setDelete]
      · rcases h with h | h
        · rcases List.mem_cons.mp h with h' | h'
          · exact absurd h' hij
          · exact Or.inl h'
        · right
          rcases h with ⟨si, hsi, hni⟩
          exact ⟨si, by
            rw [lookupTarget_update_other w.targets j i _ hij]
            exact hsi, hni⟩

/-- C4: for a target-change message whose action every registered machine
accepts (and which does not evict): an empty explicit id list dispatches the
change to every currently registered machine (broadcast — each registered
machine ends up exactly as the message's per-machine action leaves it), while
a non-empty id list of registered, duplicate-free ids dispatches only to the
named machines — every unnamed machine is untouched and every named machine
receives the action. -/
theorem targetChange_broadcast_vs_targeted (w : WatchStream) (tc : TargetChangeMsg)
    (hknd : (w.targets.map Prod.fst).Nodup)
    (hne : tc.cause = true ∨ tc.targetChangeType.getD .NO_CHANGE ≠ .REMOVE)
    (hstep : ∀ p ∈ w.targets, (applyTargetChangeTo tc p.2).1 = .ok ()) :
    (tc.targetIds.getD [] = [] →
      (w.onTargetChange tc).1 = .ok () ∧
      ∀ i s, lookupTarget w.targets i = some s →
        lookupTarget (w.onTargetChange tc).2.targets i =
          some (applyTargetChangeTo tc s).2) ∧
    (∀ ids, tc.targetIds = some ids → ids ≠ [] → ids.Nodup →
      (∀ j ∈ ids, (lookupTarget w.targets j).isSome) →
      (w.onTargetChange tc).1 = .ok () ∧
      (∀ j, j ∉ ids →
        lookupTarget (w.onTargetChange tc).2.targets j = lookupTarget w.targets j) ∧
      (∀ i ∈ ids, ∀ s, lookupTarget w.targets i = some s →
        lookupTarget (w.onTargetChange tc).2.targets i =
          some (applyTargetChangeTo tc s).2)) := by
  constructor
  · intro hempty
    have hsel : targetStatesForTargetIds w.targets (tc.targetIds.getD []) true =
        .ok (w.targets.map Prod.fst) := by
      rw [hempty]
      simp [targetStatesForTargetIds]
    have hrun : w.onTargetChange tc =
        runDocEventOn (applyTargetChangeTo tc) (w.targets.map Prod.fst) w := by
      simp only [WatchStream.onTargetChange, hsel]
      exact runTargetChangeOn_eq_runDocEventOn tc hne _ _
    have hhit := runDocEventOn_nodup_hit (applyTargetChangeTo tc)
      (w.targets.map Prod.fst) w hknd (by
        intro j hj
        rcases hs : lookupTarget w.targets j with _ | s
        · rw [← lookupTarget_isSome_iff] at hj
          rw [hs] at hj
          simp at hj
        · exact ⟨s, rfl, hstep _ (mem_of_lookupTarget w.targets j s hs)⟩)
    refine ⟨by rw [hrun]; exact hhit.1, ?_⟩
    intro i s hs
    rw [hrun]
    exact hhit.2 i (by
      rw [← lookupTarget_isSome_iff]
      simp [hs]) s hs
  · intro ids hids hne2 hnd hreg
    have hsel : targetStatesForTargetIds w.targets (tc.targetIds.getD []) true =
        .ok ids := by
      rw [hids]
      simp only [Option.getD_some, targetStatesForTargetIds]
      rw [if_pos (by simpa using hreg), if_pos]
      left
      simpa [List.length_pos] using hne2
    have hrun : w.onTargetChange tc =
        runDocEventOn (applyTargetChangeTo tc) ids w := by
      simp only [WatchStream.onTargetChange, hsel]
      exact runTargetChangeOn_eq_runDocEventOn tc hne _ _
    have hhit := runDocEventOn_nodup_hit (applyTargetChangeTo tc) ids w hnd (by
      intro j hj
      rcases hs : lookupTarget w.targets j with _ | s
      · have := hreg j hj
        rw [hs] at this
        simp at this
      · exact ⟨s, rfl, hstep _ (mem_of_lookupTarget w.targets j s hs)⟩)
    refine ⟨by rw [hrun]; exact hhit.1, ?_, ?_⟩
    · intro j hj
      rw [hrun]
      exact runDocEventOn_not_mem (applyTargetChangeTo tc) ids w j hj
    · intro i hi s hs
      rw [hrun]
      exact hhit.2 i hi s hs

/-- Witness for C4: two registered listening machines; a broadcast `CURRENT`
message (empty id list) marks both current, and a targeted `CURRENT` for id 1
leaves id 2 untouched. -/
theorem targetChange_broadcast_vs_targeted_witness :
    (((⟨true, false, 3, [(1, ⟨1, true, false, false, [], .pending, .pending, .pending,
        .pending⟩), (2, ⟨2, true, false, false, [], .pending, .pending, .pending,
        .pending⟩)]⟩ : WatchStream).onTargetChange
      ⟨none, false, some .CURRENT, none⟩).1 = .ok () ∧
      lookupTarget ((⟨true, false, 3, [(1, ⟨1, true, false, false, [], .pending, .pending,
        .pending, .pending⟩), (2, ⟨2, true, false, false, [], .pending, .pending, .pending,
        .pending⟩)]⟩ : WatchStream).onTargetChange
        ⟨none, false, some .CURRENT, none⟩).2.targets 2 =
        some ⟨2, true, false, true, [], .pending, .pending, .pending, .pending⟩) ∧
    lookupTarget ((⟨true, false, 3, [(1, ⟨1, true, false, false, [], .pending, .pending,
        .pending, .pending⟩), (2, ⟨2, true, false, false, [], .pending, .pending, .pending,
        .pending⟩)]⟩ : WatchStream).onTargetChange
      ⟨some [1], false, some .CURRENT, none⟩).2.targets 2 =
      some ⟨2, true, false, false, [], .pending, .pending, .pending, .pending⟩ := by
  refine ⟨⟨?_, ?_⟩, ?_⟩
  · exact ((targetChange_broadcast_vs_targeted
      ⟨true, false, 3, [(1, ⟨1, true, false, false, [], .pending, .pending, .pending,
        .pending⟩), (2, ⟨2, true, false, false, [], .pending, .pending, .pending,
        .pending⟩)]⟩
      ⟨none, false, some .CURRENT, none⟩ (by decide) (by decide)
      (by intro p hp; simp only [List.mem_cons, List.not_mem_nil, or_false] at hp;
          rcases hp with h | h <;> (rw [h]; rfl))).1 rfl).1
  · exact (((targetChange_broadcast_vs_targeted
      ⟨true, false, 3, [(1, ⟨1, true, false, false, [], .pending, .pending, .pending,
        .pending⟩), (2, ⟨2, true, false, false, [], .pending, .pending, .pending,
        .pending⟩)]⟩
      ⟨none, false, some .CURRENT, none⟩ (by decide) (by decide)
      (by intro p hp; simp only [List.mem_cons, List.not_mem_nil, or_false] at hp;
          rcases hp with h | h <;> (rw [h]; rfl))).1 rfl).2 2
      ⟨2, true, false, false, [], .pending, .pending, .pending, .pending⟩ (by decide))
  · exact (((targetChange_broadcast_vs_targeted
      ⟨true, false, 3, [(1, ⟨1, true, false, false, [], .pending, .pending, .pending,
        .pending⟩), (2, ⟨2, true, false, false, [], .pending, .pending, .pending,
        .pending⟩)]⟩
      ⟨some [1], false, some .CURRENT, none⟩ (by decide) (by decide)
      (by intro p hp; simp only [List.mem_cons, List.not_mem_nil, or_false] at hp;
          rcases hp with h | h <;> (rw [h]; rfl))).2 [1] rfl (by decide) (by decide) (by decide)).2.1 2 (by decide))

/-- C7: a document-change message naming the same registered id in both its
`targetIds` (added) list and its `removedTargetIds` list, over a listening
registry with all listed ids registered, processes successfully and — because
the whole added half runs before the removed half — leaves the document's
name absent from that machine's accumulated set. -/
theorem docChange_add_before_remove (w : WatchStream) (dc : DocumentChangeMsg)
    (l1 l2 : List Nat) (h1 : dc.targetIds = some l1) (h2 : dc.removedTargetIds = some l2)
    (i : Nat) (hi1 : i ∈ l1) (hi2 : i ∈ l2)
    (hreg1 : ∀ j ∈ l1, (lookupTarget w.targets j).isSome)
    (hreg2 : ∀ j ∈ l2, (lookupTarget w.targets j).isSome)
    (hok : allAddedNotRemoved w.targets) :
    (w.onDocumentChange dc).1 = .ok () ∧
    ∃ s, lookupTarget (w.onDocumentChange dc).2.targets i = some s ∧
      dc.documentName ∉ s.accumulatedDocumentNames := by
  have hsel1 : targetStatesForTargetIds w.targets (dc.targetIds.getD []) true =
      .ok l1 := by
    rw [h1]
    simp only [Option.getD_some, targetStatesForTargetIds]
    rw [if_pos (by simpa using hreg1), if_pos]
    left
    have : l1 ≠ [] := fun h => by simp [h] at hi1
    simpa [List.length_pos] using this
  have Hadd : ∀ s : TargetState, s.added = true → s.removed = false →
      ((s.onDocumentChanged dc.documentName).1 = .ok ()) ∧
      (s.onDocumentChanged dc.documentName).2.added = true ∧
      (s.onDocumentChanged dc.documentName).2.removed = false := by
    intro s hsa hsr
    simp [TargetState.onDocumentChanged, hsa, hsr]
  have hfold1 := runDocEventOn_ok (fun s => s.onDocumentChanged dc.documentName)
    Hadd l1 w hok hreg1
  rcases hf1 : runDocEventOn (fun s => s.onDocumentChanged dc.documentName) l1 w
    with ⟨r1, w1⟩
  rw [hf1] at hfold1
  simp only at hfold1
  obtain ⟨hr1, hkeys1, hok1⟩ := hfold1
  subst hr1
  have hreg2w1 : ∀ j ∈ l2, (lookupTarget w1.targets j).isSome := by
    intro j hj
    rw [lookupTarget_isSome_iff, hkeys1, ← lookupTarget_isSome_iff]
    exact hreg2 j hj
  have hsel2 : targetStatesForTargetIds w1.targets (dc.removedTargetIds.getD [])
      false = .ok l2 := by
    rw [h2]
    simp only [Option.getD_some, targetStatesForTargetIds]
    rw [if_pos (by simpa using hreg2w1), if_pos (by simp)]
  have Hrem : ∀ s : TargetState, s.added = true → s.removed = false →
      ((s.onDocumentRemoved dc.documentName).1 = .ok ()) ∧
      (s.onDocumentRemoved dc.documentName).2.added = true ∧
      (s.onDocumentRemoved dc.documentName).2.removed = false := by
    intro s hsa hsr
    simp [TargetState.onDocumentRemoved, hsa, hsr]
  have hfold2 := runDocEventOn_ok (fun s => s.onDocumentRemoved dc.documentName)
    Hrem l2 w1 hok1 hreg2w1
  have habsent := runDocEventOn_removed_absent dc.documentName l2 w1 i hok1 hreg2w1
    (Or.inl hi2)
  have hw : w.onDocumentChange dc =
      runDocEventOn (fun s => s.onDocumentRemoved dc.documentName) l2 w1 := by
    simp only [WatchStream.onDocumentChange, hsel1, hf1, hsel2]
  rw [hw]
  exact ⟨hfold2.1, habsent⟩

/-- Witness for C7: one registered listening machine with id 5 that already
holds document `D`; a message naming 5 in both lists removes `D`. -/
theorem docChange_add_before_remove_witness :
    ((⟨true, false, 6, [(5, ⟨5, true, false, false, ["D"], .pending, .pending, .pending,
        .pending⟩)]⟩ : WatchStream).onDocumentChange ⟨some [5], some [5], "D"⟩).1 =
      .ok () ∧
    ∃ s, lookupTarget ((⟨true, false, 6, [(5, ⟨5, true, false, false, ["D"], .pending,
        .pending, .pending, .pending⟩)]⟩ : WatchStream).onDocumentChange
      ⟨some [5], some [5], "D"⟩).2.targets 5 = some s ∧
      "D" ∉ s.accumulatedDocumentNames :=
  docChange_add_before_remove
    ⟨true, false, 6, [(5, ⟨5, true, false, false, ["D"], .pending, .pending, .pending,
      .pending⟩)]⟩
    ⟨some [5], some [5], "D"⟩ [5] [5] rfl rfl 5 (by decide) (by decide)
    (by decide) (by decide)
    (by intro p hp; simp only [List.mem_cons, List.not_mem_nil, or_false] at hp;
        rw [hp]; exact ⟨rfl, rfl⟩)

/-- C8: `removeTarget` with an unregistered id raises `WatchError` (the spec's
`ProtocolStateError`) and leaves the controller unchanged; and a server-driven
`REMOVE` target-change for a registered listening machine processes
successfully, evicts the machine from the registry, and leaves subsequent
`getInitialSnapshot`/`getExistenceFilter` calls for that id failing with
`WatchError` (unknown id). -/
theorem removeTarget_unknown_and_eviction (w : WatchStream) (i j : Nat)
    (s : TargetState) (hs : lookupTarget w.targets i = some s)
    (hsa : s.added = true) (hsr : s.removed = false)
    (hj : lookupTarget w.targets j = none) :
    (isWatchError (w.removeTarget j).1 ∧ (w.removeTarget j).2 = w) ∧
    ((w.onTargetChange ⟨some [i], false, some .REMOVE, none⟩).1 = .ok () ∧
      lookupTarget (w.onTargetChange
        ⟨some [i], false, some .REMOVE, none⟩).2.targets i = none ∧
      isWatchError ((w.onTargetChange
        ⟨some [i], false, some .REMOVE, none⟩).2.getInitialSnapshot i) ∧
      isWatchError ((w.onTargetChange
        ⟨some [i], false, some .REMOVE, none⟩).2.getExistenceFilter i)) := by
  constructor
  · by_cases hst : w.streamOpen = true
    · by_cases hc : w.closed = true
      · exact ⟨⟨"removeTarget() may not be called after close()",
          by simp [WatchStream.removeTarget, hst, hc]⟩,
          by simp [WatchStream.removeTarget, hst, hc]⟩
      · simp only [Bool.not_eq_true] at hc
        exact ⟨⟨"targetId has not been added by addTarget()",
          by simp [WatchStream.removeTarget, hst, hc, hj]⟩,
          by simp [WatchStream.removeTarget, hst, hc, hj]⟩
    · simp only [Bool.not_eq_true] at hst
      exact ⟨⟨"open() must be called before removeTarget()",
        by simp [WatchStream.removeTarget, hst]⟩,
        by simp [WatchStream.removeTarget, hst]⟩
  · have hsel : targetStatesForTargetIds w.targets
        ((⟨some [i], false, some .REMOVE, none⟩ : TargetChangeMsg).targetIds.getD [])
        true = .ok [i] := by
      simp only [Option.getD_some, targetStatesForTargetIds]
      rw [if_pos (by simp [hs]), if_pos (by simp)]
    have hact : applyTargetChangeTo ⟨some [i], false, some .REMOVE, none⟩ s =
        (.ok (), { s with
          removed := true,
          removedDeferred := s.removedDeferred.resolve () }) := by
      simp [applyTargetChangeTo, TargetState.onRemoved, hsa, hsr]
    have hrun : w.onTargetChange ⟨some [i], false, some .REMOVE, none⟩ =
        (.ok (), { w with targets := deleteTarget (updateTarget w.targets i
          { s with
            removed := true,
            removedDeferred := s.removedDeferred.resolve () }) i }) := by
      simp only [WatchStream.onTargetChange, hsel, runTargetChangeOn, hs, hact]
      rw [if_pos (by simp)]
    rw [hrun]
    have hnone : lookupTarget (deleteTarget (updateTarget w.targets i
        { s with
          removed := true,
          removedDeferred := s.removedDeferred.resolve () }) i) i = none :=
      lookupTarget_delete_self _ i
    refine ⟨rfl, hnone, ?_, ?_⟩
    · exact ⟨"unknown targetId", by simp [WatchStream.getInitialSnapshot, hnone]⟩
    · exact ⟨"unknown targetId", by simp [WatchStream.getExistenceFilter, hnone]⟩

/-- Witness for C8: registry holding only the listening machine 1; id 9 is
unknown to `removeTarget`, and a `REMOVE` for id 1 evicts it. -/
theorem removeTarget_unknown_and_eviction_witness :
    isWatchError ((⟨true, false, 2, [(1, ⟨1, true, false, false, [], .pending, .pending,
      .pending, .pending⟩)]⟩ : WatchStream).removeTarget 9).1 ∧
    lookupTarget ((⟨true, false, 2, [(1, ⟨1, true, false, false, [], .pending, .pending,
      .pending, .pending⟩)]⟩ : WatchStream).onTargetChange
      ⟨some [1], false, some .REMOVE, none⟩).2.targets 1 = none :=
  ⟨((removeTarget_unknown_and_eviction
      ⟨true, false, 2, [(1, ⟨1, true, false, false, [], .pending, .pending, .pending,
        .pending⟩)]⟩ 1 9
      ⟨1, true, false, false, [], .pending, .pending, .pending, .pending⟩
      (by decide) rfl rfl (by decide)).1).1,
    ((removeTarget_unknown_and_eviction
      ⟨true, false, 2, [(1, ⟨1, true, false, false, [], .pending, .pending, .pending,
        .pending⟩)]⟩ 1 9
      ⟨1, true, false, false, [], .pending, .pending, .pending, .pending⟩
      (by decide) rfl rfl (by decide)).2).2.1⟩

/-- C1 counterexample: a document-change message with an empty `targetIds`
list does NOT leave the registered machines' accumulated sets unchanged — the
added half is dispatched with `allTargetsIfEmpty = true`, so the single
registered listening machine (id 1, empty accumulated set) ends up holding
the document name `D`. -/
theorem docChange_empty_targetIds_counterexample :
    ((⟨true, false, 2, [(1, ⟨1, true, false, false, [], .pending, .pending, .pending,
        .pending⟩)]⟩ : WatchStream).onDocumentChange ⟨some [], some [], "D"⟩).1 =
      .ok () ∧
    lookupTarget ((⟨true, false, 2, [(1, ⟨1, true, false, false, [], .pending, .pending,
        .pending, .pending⟩)]⟩ : WatchStream).onDocumentChange
      ⟨some [], some [], "D"⟩).2.targets 1 =
      some ⟨1, true, false, false, ["D"], .pending, .pending, .pending, .pending⟩ :=
  ⟨rfl, rfl⟩

/-- C1 amended: for a document-change message whose `targetIds` list is empty
(and whose `removedTargetIds` list is also empty), over a duplicate-free
listening registry, processing succeeds and the added half is broadcast:
every registered machine receives `onDocumentChanged`, i.e. ends up with
`current` cleared and the document's name added to its accumulated set. -/
theorem docChange_empty_targetIds_broadcast (w : WatchStream)
    (dc : DocumentChangeMsg)
    (hknd : (w.targets.map Prod.fst).Nodup)
    (hok : allAddedNotRemoved w.targets)
    (hempty : dc.targetIds.getD [] = [])
    (hrem : dc.removedTargetIds.getD [] = []) :
    (w.onDocumentChange dc).1 = .ok () ∧
    ∀ i s, lookupTarget w.targets i = some s →
      lookupTarget (w.onDocumentChange dc).2.targets i =
        some { s with
          current := false,
          accumulatedDocumentNames := setAdd s.accumulatedDocumentNames
            dc.documentName } := by
  have hsel1 : targetStatesForTargetIds w.targets (dc.targetIds.getD []) true =
      .ok (w.targets.map Prod.fst) := by
    rw [hempty]
    simp [targetStatesForTargetIds]
  have hhit := runDocEventOn_nodup_hit (fun s => s.onDocumentChanged dc.documentName)
    (w.targets.map Prod.fst) w hknd (by
      intro j hj
      rcases hs : lookupTarget w.targets j with _ | s
      · rw [← lookupTarget_isSome_iff] at hj
        rw [hs] at hj
        simp at hj
      · refine ⟨s, rfl, ?_⟩
        have hmem := mem_of_lookupTarget w.targets j s hs
        have hsa : s.added = true := (hok (j, s) hmem).1
        have hsr : s.removed = false := (hok (j, s) hmem).2
        simp [TargetState.onDocumentChanged, hsa, hsr])
  rcases hf1 : runDocEventOn (fun s => s.onDocumentChanged dc.documentName)
    (w.targets.map Prod.fst) w with ⟨r1, w1⟩
  rw [hf1] at hhit
  simp only at hhit
  obtain ⟨hr1, hhit2⟩ := hhit
  subst hr1
  have hsel2 : targetStatesForTargetIds w1.targets (dc.removedTargetIds.getD [])
      false = .ok [] := by
    rw [hrem]
    simp [targetStatesForTargetIds]
  have hw : w.onDocumentChange dc = (.ok (), w1) := by
    simp only [WatchStream.onDocumentChange, hsel1, hf1, hsel2, runDocEventOn]
  rw [hw]
  refine ⟨rfl, ?_⟩
  intro i s hs
  have hmem := mem_of_lookupTarget w.targets i s hs
  have hsa : s.added = true := (hok (i, s) hmem).1
  have hsr : s.removed = false := (hok (i, s) hmem).2
  have := hhit2 i (by
    rw [← lookupTarget_isSome_iff]
    simp [hs]) s hs
  rw [this]
  simp [TargetState.onDocumentChanged, hsa, hsr]

/-- Witness for the amended C1 at the counterexample input: machine 1 gains
document `D` from the broadcast added half. -/
theorem docChange_empty_targetIds_broadcast_witness :
    ((⟨true, false, 2, [(1, ⟨1, true, false, false, [], .pending, .pending, .pending,
        .pending⟩)]⟩ : WatchStream).onDocumentChange ⟨some [], some [], "D"⟩).1 =
      .ok () ∧
    lookupTarget ((⟨true, false, 2, [(1, ⟨1, true, false, false, [], .pending, .pending,
        .pending, .pending⟩)]⟩ : WatchStream).onDocumentChange
      ⟨some [], some [], "D"⟩).2.targets 1 =
      some ⟨1, true, false, false, ["D"], .pending, .pending, .pending, .pending⟩ :=
  ⟨(docChange_empty_targetIds_broadcast
      ⟨true, false, 2, [(1, ⟨1, true, false, false, [], .pending, .pending, .pending,
        .pending⟩)]⟩ ⟨some [], some [], "D"⟩
      (by decide)
      (by intro p hp; simp only [List.mem_cons, List.not_mem_nil, or_false] at hp;
          rw [hp]; exact ⟨rfl, rfl⟩) rfl rfl).1,
    (docChange_empty_targetIds_broadcast
      ⟨true, false, 2, [(1, ⟨1, true, false, false, [], .pending, .pending, .pending,
        .pending⟩)]⟩ ⟨some [], some [], "D"⟩
      (by decide)
      (by intro p hp; simp only [List.mem_cons, List.not_mem_nil, or_false] at hp;
          rw [hp]; exact ⟨rfl, rfl⟩) rfl rfl).2 1
      ⟨1, true, false, false, [], .pending, .pending, .pending, .pending⟩ (by decide)⟩
